import Mathlib

/-!
Verification of the Lumoria shadow/light-intensity classifier and its
companion validation module.

The JavaScript sources model planets as records with a name, a distance
from the star (AU) and a size (km diameter).  JavaScript numbers are
modelled as rationals; decimal literals such as `0.4` are written
`mkRat 4 10`.  JavaScript's stable `Array.prototype.sort` with the
comparator `(a, b) => a.distance - b.distance` is modelled by the stable
insertion sort on the non-strict distance order.
-/

namespace Lumoria

/-- A celestial body: `name`, `distance` from the star in AU, `size`
(diameter) in km.  Mirrors the planet objects of the sources. -/
structure Planet where
  name : String
  distance : ℚ
  size : ℚ
deriving DecidableEq, Repr

/-- The ordering used by every `sort((a, b) => a.distance - b.distance)`
call in the sources. -/
def distLE (a b : Planet) : Prop := a.distance ≤ b.distance

instance : DecidableRel distLE := fun a b =>
  inferInstanceAs (Decidable (a.distance ≤ b.distance))

instance : IsTotal Planet distLE := ⟨fun a b => le_total a.distance b.distance⟩

instance : IsTrans Planet distLE := ⟨fun _ _ _ h h₂ => le_trans h h₂⟩

/-- Stable sort of the planets by ascending distance, modelling
`[...planets].sort((a, b) => a.distance - b.distance)`. -/
def sortByDistance (planets : List Planet) : List Planet :=
  planets.insertionSort distLE

/-- Model of `getShadowCount` (part_004, lines 29-35): the number of
planets before `currentIndex` whose size strictly exceeds the current
planet's size; 0 for the first planet.  An out-of-range index yields 0,
as the JavaScript comparison with `undefined` is always false. -/
def getShadowCount (planets : List Planet) (currentIndex : ℕ) : ℕ :=
  if currentIndex = 0 then 0
  else
    match planets[currentIndex]? with
    | none => 0
    | some current =>
        ((planets.take currentIndex).filter
          (fun planet => current.size < planet.size)).length

/-- Model of `getLightIntensity` (part_004, lines 45-51). -/
def getLightIntensity (planetIndex shadowCount : ℕ) : String :=
  if planetIndex = 0 then "Full"
  else if shadowCount = 1 then "None"
  else if 1 < shadowCount then "None (Multiple Shadows)"
  else "Partial"

/-- One entry of the output of `calculateLightIntensity` (part_004,
lines 71-79). -/
structure LightResult where
  name : String
  light : String
  distance : ℚ
  size : ℚ
  shadowCount : ℕ
  largerPlanetsInFront : ℕ
  smallerPlanetsInFront : ℕ
deriving DecidableEq, Repr

/-- The record built for the planet at index `i` of the sorted list
(part_004, lines 62-79). -/
def mkLightResult (sortedPlanets : List Planet) (i : ℕ) (planet : Planet) :
    LightResult :=
  let shadowCount := getShadowCount sortedPlanets i
  let lightIntensity := getLightIntensity i shadowCount
  let planetsInFront := sortedPlanets.take i
  { name := planet.name
    light := lightIntensity
    distance := planet.distance
    size := planet.size
    shadowCount := shadowCount
    largerPlanetsInFront :=
      (planetsInFront.filter (fun p => planet.size < p.size)).length
    smallerPlanetsInFront :=
      (planetsInFront.filter (fun p => p.size ≤ planet.size)).length }

/-- Model of `calculateLightIntensity` (part_004, lines 58-81): sort by
distance, then map each planet with its index to a result record. -/
def calculateLightIntensity (planets : List Planet) : List LightResult :=
  let sortedPlanets := sortByDistance planets
  sortedPlanets.enum.map (fun p => mkLightResult sortedPlanets p.1 p.2)

/-- Model of `defaultLumoriaPlanets` (part_004, lines 16-21), in source
order. -/
def defaultLumoriaPlanets : List Planet :=
  [ { name := "Mercuria", distance := mkRat 4 10, size := 4879 }
  , { name := "Earthia", distance := 1, size := 12742 }
  , { name := "Venusia", distance := mkRat 7 10, size := 12104 }
  , { name := "Marsia", distance := mkRat 15 10, size := 6779 } ]

/-- Model of `AU_TO_KM = 149597870.7` (scientific-shadow.js, line 23). -/
def AU_TO_KM : ℚ := mkRat 1495978707 10

/-- Model of `calculateAngularSize` (scientific-shadow.js, lines 22-28). -/
def calculateAngularSize (planetSize distance : ℚ) : ℚ :=
  let distanceKm := distance * AU_TO_KM
  let angularSizeRadians := planetSize / distanceKm
  angularSizeRadians * 206265

/-- Return value of `calculateShadowInteraction` (scientific-shadow.js). -/
structure ShadowInfo where
  hasShadow : Bool
  type : String
  intensity : ℚ
deriving DecidableEq, Repr

/-- Model of `calculateShadowInteraction` (scientific-shadow.js, lines
36-55): no shadow when the caster is not strictly closer; otherwise a
three-tier intensity keyed off `1.1` and `0.9` times the receiver's
size.  The angular sizes computed by the source do not influence the
result and are omitted. -/
def calculateShadowInteraction (shadowCaster shadowReceiver : Planet) :
    ShadowInfo :=
  if shadowReceiver.distance ≤ shadowCaster.distance then
    { hasShadow := false, type := "none", intensity := 0 }
  else if shadowReceiver.size * mkRat 11 10 < shadowCaster.size then
    { hasShadow := true, type := "complete", intensity := 1 }
  else if shadowReceiver.size * mkRat 9 10 < shadowCaster.size then
    { hasShadow := true, type := "partial", intensity := mkRat 6 10 }
  else
    { hasShadow := true, type := "minimal", intensity := mkRat 3 10 }

/-- One entry of `shadowDetails` (scientific-shadow.js, lines 86-90). -/
structure ShadowDetail where
  caster : String
  type : String
  intensity : ℚ
deriving DecidableEq, Repr

/-- Return value of `getScientificShadowAnalysis`. -/
structure ShadowAnalysis where
  shadowCount : ℕ
  totalShadowIntensity : ℚ
  shadowDetails : List ShadowDetail
  lightIntensity : ℚ
deriving DecidableEq, Repr

/-- Model of `getScientificShadowAnalysis` (scientific-shadow.js, lines
63-105): analyze only the strictly larger planets in front, record a
shadow detail for each one that casts a shadow, sum their intensities,
cap the total at `1.0` and subtract from full light.  An out-of-range
index behaves as in JavaScript, where the filter against `undefined`
keeps nothing. -/
def getScientificShadowAnalysis (planets : List Planet) (currentIndex : ℕ) :
    ShadowAnalysis :=
  if currentIndex = 0 then
    { shadowCount := 0, totalShadowIntensity := 0, shadowDetails := [],
      lightIntensity := 1 }
  else
    match planets[currentIndex]? with
    | none =>
        { shadowCount := 0, totalShadowIntensity := 0, shadowDetails := [],
          lightIntensity := 1 }
    | some currentPlanet =>
        let largerPlanetsInFront := (planets.take currentIndex).filter
          (fun planet => currentPlanet.size < planet.size)
        let shadowDetails := largerPlanetsInFront.filterMap
          (fun shadowCaster =>
            let shadowInfo := calculateShadowInteraction shadowCaster currentPlanet
            if shadowInfo.hasShadow then
              some { caster := shadowCaster.name, type := shadowInfo.type,
                     intensity := shadowInfo.intensity }
            else none)
        let totalShadowIntensity := (shadowDetails.map (fun d => d.intensity)).sum
        let effectiveShadowIntensity := min totalShadowIntensity 1
        let lightIntensity := max 0 (1 - effectiveShadowIntensity)
        { shadowCount := largerPlanetsInFront.length
          totalShadowIntensity := effectiveShadowIntensity
          shadowDetails := shadowDetails
          lightIntensity := lightIntensity }

/-- Model of `getScientificLightIntensity` (scientific-shadow.js, lines
113-122): same categorical rule as the main system, driven by
`shadowCount`. -/
def getScientificLightIntensity (shadowAnalysis : ShadowAnalysis)
    (planetIndex : ℕ) : String :=
  if planetIndex = 0 then "Full"
  else if shadowAnalysis.shadowCount = 1 then "None"
  else if 1 < shadowAnalysis.shadowCount then "None (Multiple Shadows)"
  else "Partial"

/-- One entry of the output of `calculateScientificLightIntensity`
(scientific-shadow.js, lines 136-146). -/
structure SciResult where
  name : String
  distance : ℚ
  size : ℚ
  light : String
  scientificLightIntensity : ℚ
  shadowCount : ℕ
  totalShadowIntensity : ℚ
  shadowDetails : List ShadowDetail
  angularSize : ℚ
deriving DecidableEq, Repr

/-- The record built for the planet at index `i` of the sorted list
(scientific-shadow.js, lines 132-146). -/
def mkSciResult (sortedPlanets : List Planet) (i : ℕ) (planet : Planet) :
    SciResult :=
  let shadowAnalysis := getScientificShadowAnalysis sortedPlanets i
  { name := planet.name
    distance := planet.distance
    size := planet.size
    light := getScientificLightIntensity shadowAnalysis i
    scientificLightIntensity := shadowAnalysis.lightIntensity
    shadowCount := shadowAnalysis.shadowCount
    totalShadowIntensity := shadowAnalysis.totalShadowIntensity
    shadowDetails := shadowAnalysis.shadowDetails
    angularSize := calculateAngularSize planet.size planet.distance }

/-- Model of `calculateScientificLightIntensity` (scientific-shadow.js,
lines 129-148). -/
def calculateScientificLightIntensity (planets : List Planet) :
    List SciResult :=
  let sortedPlanets := sortByDistance planets
  sortedPlanets.enum.map (fun p => mkSciResult sortedPlanets p.1 p.2)

/-- A planet record of lumoria-light-intensity.js, whose size field is
called `diameter`. -/
structure LPlanet where
  name : String
  distance : ℚ
  diameter : ℚ
deriving DecidableEq, Repr

/-- One entry of the output of `calculateLightIntensities`
(lumoria-light-intensity.js, lines 107-113). -/
structure LResult where
  name : String
  distance : ℚ
  diameter : ℚ
  shadow : String
  closerCount : ℕ
  largerCloserCount : ℕ
  smallerCloserCount : ℕ
deriving DecidableEq, Repr

/-- Model of `calculateLightIntensities` (lumoria-light-intensity.js,
lines 92-115), the alternate classification rule.  The caller sorts the
planets by distance before calling; the function itself buckets each
planet by the number of closer planets first and by relative size only
when exactly one planet is closer. -/
def calculateLightIntensities (sortedPlanets : List LPlanet) : List LResult :=
  sortedPlanets.enum.map (fun p =>
    let idx := p.1
    let planet := p.2
    let closer := sortedPlanets.take idx
    let largerCloser := closer.filter (fun q => planet.diameter < q.diameter)
    let smallerCloser := closer.filter (fun q => q.diameter < planet.diameter)
    let shadow :=
      if 1 < closer.length then "None (Multiple Shadows)"
      else if 0 < largerCloser.length then "Full"
      else if 0 < smallerCloser.length then "Partial"
      else "None"
    { name := planet.name
      distance := planet.distance
      diameter := planet.diameter
      shadow := shadow
      closerCount := closer.length
      largerCloserCount := largerCloser.length
      smallerCloserCount := smallerCloser.length })

/-- Model of JavaScript `String.prototype.trim()`: strip whitespace from
both ends of the string. -/
def jsTrim (s : String) : String :=
  ⟨((s.data.dropWhile Char.isWhitespace).reverse.dropWhile
      Char.isWhitespace).reverse⟩

/-- Return value of `validatePlanet` (part_001): the validity flag, the
collected error messages and the normalized planet (trimmed name; the
`parseFloat` round-trips are identities on numbers). -/
structure PlanetValidation where
  isValid : Bool
  errors : List String
  planet : Planet
deriving DecidableEq, Repr

/-- Model of `validatePlanet` (part_001, lines 56-88): each failed check
appends its message, so all violations are collected. -/
def validatePlanet (planet : Planet) : PlanetValidation :=
  let errors :=
    (if (jsTrim planet.name).length = 0 then
      ["Planet name is required and must be a non-empty string"] else []) ++
    (if planet.distance ≤ 0 then
      ["Distance must be a positive number (AU)"] else []) ++
    (if planet.size ≤ 0 then
      ["Size must be a positive number (km diameter)"] else []) ++
    (if 50 < planet.distance then
      ["Distance seems unrealistically large (>50 AU) - please verify"] else []) ++
    (if 150000 < planet.size then
      ["Size seems unrealistically large (>150,000 km) - please verify"] else [])
  { isValid := errors.isEmpty
    errors := errors
    planet := { name := jsTrim planet.name, distance := planet.distance,
                size := planet.size } }

/-- Input of `validateStarSystem` (part_001): a named system with a list
of planet records and an optional description. -/
structure SystemInput where
  name : String
  description : Option String
  planets : List Planet
deriving DecidableEq, Repr

/-- The validated system returned by `validateStarSystem`. -/
structure ValidatedSystem where
  name : String
  description : String
  planets : List Planet
deriving DecidableEq, Repr

/-- Return value of `validateStarSystem`. -/
structure SystemValidation where
  isValid : Bool
  errors : List String
  validatedSystem : ValidatedSystem
deriving DecidableEq, Repr

/-- The planets of the system that pass `validatePlanet`, normalized, in
input order (part_001, lines 107-114). -/
def validatedPlanetsOf (planets : List Planet) : List Planet :=
  planets.filterMap (fun planet =>
    let validation := validatePlanet planet
    if validation.isValid then some validation.planet else none)

/-- Model of the per-planet error lines of `validateStarSystem`
(part_001, lines 107-114). -/
def planetErrorsOf (planets : List Planet) : List String :=
  planets.enum.filterMap (fun p =>
    let validation := validatePlanet p.2
    if validation.isValid then none
    else some ("Planet " ++ toString (p.1 + 1) ++ ": " ++
      String.intercalate ", " validation.errors))

/-- Model of the duplicate-distance scan of `validateStarSystem`
(part_001, lines 123-129).  For the entry at index `index`,
`distances.find((d, i) => i !== index && Math.abs(d - dist) < 0.01)`
returns the first distance at another index within `0.01`; the entry
counts as a duplicate when that found value is truthy, i.e. nonzero. -/
def duplicateDistancesOf (distances : List ℚ) : List ℚ :=
  (distances.enum.filter (fun p =>
    match distances.enum.find? (fun q =>
        decide (q.1 ≠ p.1) && decide (|q.2 - p.2| < mkRat 1 100)) with
    | some q => decide (q.2 ≠ 0)
    | none => false)).map (fun p => p.2)

/-- Model of the duplicate-name scan of `validateStarSystem` (part_001,
lines 117-121): the lowercased names whose first occurrence is at an
earlier index. -/
def duplicateNamesOf (names : List String) : List String :=
  (names.enum.filter (fun p => names.indexOf p.2 ≠ p.1)).map (fun p => p.2)

/-- Model of `validateStarSystem` (part_001, lines 95-141). -/
def validateStarSystem (system : SystemInput) : SystemValidation :=
  let nameErrors :=
    if (jsTrim system.name).length = 0 then ["Star system name is required"]
    else []
  let defaultDescription := "Custom star system: " ++ system.name
  let description :=
    match system.description with
    | some d => if (jsTrim d).length = 0 then defaultDescription else jsTrim d
    | none => defaultDescription
  if system.planets.isEmpty then
    let errors := nameErrors ++ ["At least one planet is required"]
    { isValid := errors.isEmpty
      errors := errors
      validatedSystem := { name := jsTrim system.name,
                           description := description, planets := [] } }
  else
    let validatedPlanets := validatedPlanetsOf system.planets
    let planetNames := validatedPlanets.map (fun p => p.name.toLower)
    let nameDupErrors :=
      if 0 < (duplicateNamesOf planetNames).length then
        ["Duplicate planet names found: " ++
          String.intercalate ", " (duplicateNamesOf planetNames).eraseDups]
      else []
    let distances := validatedPlanets.map (fun p => p.distance)
    let distDupErrors :=
      if 0 < (duplicateDistancesOf distances).length then
        ["Multiple planets cannot occupy the same orbital distance"]
      else []
    let errors :=
      nameErrors ++ planetErrorsOf system.planets ++ nameDupErrors ++ distDupErrors
    { isValid := errors.isEmpty
      errors := errors
      validatedSystem := { name := jsTrim system.name
                           description := description
                           planets := sortByDistance validatedPlanets } }

end Lumoria

namespace Lumoria

lemma calculateLightIntensity_getElem? (l : List Planet) (i : ℕ) :
    (calculateLightIntensity l)[i]? =
      ((sortByDistance l)[i]?).map
        (fun p => mkLightResult (sortByDistance l) i p) := by
  simp only [calculateLightIntensity, List.getElem?_map, List.getElem?_enum,
    Option.map_map, Function.comp]
  rfl

lemma calculateScientificLightIntensity_getElem? (l : List Planet) (i : ℕ) :
    (calculateScientificLightIntensity l)[i]? =
      ((sortByDistance l)[i]?).map
        (fun p => mkSciResult (sortByDistance l) i p) := by
  simp only [calculateScientificLightIntensity, List.getElem?_map,
    List.getElem?_enum, Option.map_map, Function.comp]
  rfl

lemma sortByDistance_sorted (l : List Planet) :
    List.Sorted distLE (sortByDistance l) :=
  List.sorted_insertionSort distLE l

lemma sortByDistance_perm (l : List Planet) :
    (sortByDistance l).Perm l :=
  List.perm_insertionSort distLE l

/-- C2: on the canonical four-body input (source order Mercuria, Earthia,
Venusia, Marsia), classification yields Mercuria = Full, Venusia =
Partial, Earthia = Partial and Marsia = None (Multiple Shadows), in
ascending-distance order. -/
theorem canonical_four_body_classification :
    (calculateLightIntensity defaultLumoriaPlanets).map
      (fun r => (r.name, r.light)) =
    [("Mercuria", "Full"), ("Venusia", "Partial"), ("Earthia", "Partial"),
     ("Marsia", "None (Multiple Shadows)")] := by decide

/-- C3: classification returns one result per input body (the projections
of the output are a permutation of the projections of the input and the
lengths agree), the output is sorted ascending by distance, and the empty
input yields the empty output. -/
theorem classification_shape :
    (∀ l : List Planet,
      (calculateLightIntensity l).length = l.length ∧
      List.Pairwise (fun r s => r.distance ≤ s.distance)
        (calculateLightIntensity l) ∧
      ((calculateLightIntensity l).map (fun r => (r.name, r.distance, r.size))).Perm
        (l.map (fun p => (p.name, p.distance, p.size)))) ∧
    calculateLightIntensity [] = [] := by
  refine ⟨fun l => ⟨?_, ?_, ?_⟩, rfl⟩
  · simp [calculateLightIntensity, sortByDistance]
  · have hs : List.Pairwise distLE (sortByDistance l) := sortByDistance_sorted l
    have hmap :
        List.Pairwise (fun a b : ℕ × Planet => distLE a.2 b.2)
          (sortByDistance l).enum := by
      rw [← List.enum_map_snd (sortByDistance l)] at hs
      exact List.pairwise_map.mp hs
    rw [calculateLightIntensity, List.pairwise_map]
    exact hmap.imp (fun h => h)
  · have hmaps :
        (calculateLightIntensity l).map (fun r => (r.name, r.distance, r.size)) =
          (sortByDistance l).map (fun p => (p.name, p.distance, p.size)) := by
      rw [calculateLightIntensity, List.map_map]
      have : ((fun r : LightResult => (r.name, r.distance, r.size)) ∘
          fun p : ℕ × Planet => mkLightResult (sortByDistance l) p.1 p.2) =
          (fun p : Planet => (p.name, p.distance, p.size)) ∘ Prod.snd := by
        funext p
        rfl
      rw [this, ← List.map_map, List.enum_map_snd]
    rw [hmaps]
    exact (sortByDistance_perm l).map _

end Lumoria

namespace Lumoria

/-- C1: after sorting ascending by distance, the classifier labels the
body at sorted position `i` Full when `i = 0`, otherwise None when
exactly one strictly larger body is closer, None (Multiple Shadows) when
more than one is, and Partial when none is. -/
theorem shadow_rule_at_sorted_position (l : List Planet)
    (_hpos : ∀ p ∈ l, 0 < p.distance ∧ 0 < p.size) (i : ℕ) (b : Planet)
    (hb : (sortByDistance l)[i]? = some b) :
    ((calculateLightIntensity l)[i]?).map (fun r => r.light) =
      some (if i = 0 then "Full"
        else if (((sortByDistance l).take i).filter
            (fun p => b.size < p.size)).length = 1 then "None"
        else if 1 < (((sortByDistance l).take i).filter
            (fun p => b.size < p.size)).length then "None (Multiple Shadows)"
        else "Partial") := by
  rw [calculateLightIntensity_getElem?, hb]
  by_cases h0 : i = 0
  · subst h0
    simp [mkLightResult, getLightIntensity]
  · have hsc : getShadowCount (sortByDistance l) i =
        (((sortByDistance l).take i).filter
          (fun p => b.size < p.size)).length := by
      simp [getShadowCount, h0, hb]
    simp [mkLightResult, getLightIntensity, h0, hsc]

/-- Witness for `shadow_rule_at_sorted_position` at the canonical data
and sorted position 3 (Marsia, shadowed by Venusia and Earthia). -/
theorem shadow_rule_at_sorted_position_witness :
    (∀ p ∈ defaultLumoriaPlanets, 0 < p.distance ∧ 0 < p.size) ∧
    (sortByDistance defaultLumoriaPlanets)[3]? =
      some { name := "Marsia", distance := mkRat 15 10, size := 6779 } ∧
    ((calculateLightIntensity defaultLumoriaPlanets)[3]?).map
        (fun r => r.light) =
      some (if 3 = 0 then "Full"
        else if (((sortByDistance defaultLumoriaPlanets).take 3).filter
            (fun p => (6779 : ℚ) < p.size)).length = 1 then "None"
        else if 1 < (((sortByDistance defaultLumoriaPlanets).take 3).filter
            (fun p => (6779 : ℚ) < p.size)).length then
          "None (Multiple Shadows)"
        else "Partial") :=
  ⟨by decide, by decide,
    shadow_rule_at_sorted_position defaultLumoriaPlanets (by decide) 3
      { name := "Marsia", distance := mkRat 15 10, size := 6779 } (by decide)⟩

/-- C4, counterexample: the alternate classifier
`calculateLightIntensities` labels the (unique, hence minimal-distance)
body of a one-body input "None", not "Full", although the body has
positive distance and diameter. -/
theorem nearest_body_alternate_counterexample :
    ((calculateLightIntensities
        [{ name := "Solo", distance := 1, diameter := 5000 }]).map
      (fun r => r.shadow) = ["None"]) ∧
    (0 : ℚ) < 1 ∧ (0 : ℚ) < 5000 ∧ "None" ≠ "Full" := by decide

/-- C4, amended: the primary classifier `calculateLightIntensity` puts a
body of minimal distance first and labels it Full; the alternate variant
`calculateLightIntensities` instead labels the minimal-distance body
"None". -/
theorem nearest_body_full_primary (l : List Planet) (hne : l ≠ [])
    (_hpos : ∀ p ∈ l, 0 < p.distance ∧ 0 < p.size) :
    ∃ r rest, calculateLightIntensity l = r :: rest ∧ r.light = "Full" ∧
      ∀ p ∈ l, r.distance ≤ p.distance := by
  cases hs : sortByDistance l with
  | nil =>
      exact absurd ((hs ▸ sortByDistance_perm l).symm.eq_nil) hne
  | cons b t =>
      have hperm := sortByDistance_perm l
      have hsorted := sortByDistance_sorted l
      rw [hs] at hperm hsorted
      refine ⟨mkLightResult (sortByDistance l) 0 b,
        (t.enumFrom 1).map (fun p => mkLightResult (sortByDistance l) p.1 p.2),
        ?_, rfl, ?_⟩
      · rw [calculateLightIntensity]
        simp only [hs, List.enum_cons, List.map_cons]
      · intro p hp
        have hp' : p ∈ b :: t := hperm.mem_iff.mpr hp
        rcases List.mem_cons.mp hp' with h | h
        · subst h
          exact le_refl _
        · exact List.rel_of_sorted_cons hsorted p h

/-- Witness for `nearest_body_full_primary` at the canonical data. -/
theorem nearest_body_full_primary_witness :
    defaultLumoriaPlanets ≠ [] ∧
    (∀ p ∈ defaultLumoriaPlanets, 0 < p.distance ∧ 0 < p.size) ∧
    (∃ r rest, calculateLightIntensity defaultLumoriaPlanets = r :: rest ∧
      r.light = "Full" ∧
      ∀ p ∈ defaultLumoriaPlanets, r.distance ≤ p.distance) :=
  ⟨by decide, by decide,
    nearest_body_full_primary defaultLumoriaPlanets (by decide) (by decide)⟩

/-- C5: for a two-body input (either order) with equal sizes and the
first body strictly nearer, the nearer body is labelled Full and the
farther one Partial — an equally sized closer body is not a larger
shadow caster. -/
theorem equal_size_two_body (p q : Planet)
    (_hpd : 0 < p.distance) (_hqd : 0 < q.distance)
    (_hps : 0 < p.size) (_hqs : 0 < q.size)
    (hsize : p.size = q.size) (hlt : p.distance < q.distance) :
    (calculateLightIntensity [p, q]).map (fun r => (r.name, r.light)) =
      [(p.name, "Full"), (q.name, "Partial")] ∧
    (calculateLightIntensity [q, p]).map (fun r => (r.name, r.light)) =
      [(p.name, "Full"), (q.name, "Partial")] := by
  have hg : getShadowCount [p, q] 1 = 0 := by
    simp [getShadowCount, hsize]
  have compute : ∀ input : List Planet, sortByDistance input = [p, q] →
      (calculateLightIntensity input).map (fun r => (r.name, r.light)) =
        [(p.name, "Full"), (q.name, "Partial")] := by
    intro input hsort
    rw [calculateLightIntensity]
    simp only [hsort, List.enum_cons, List.enumFrom_cons, List.enumFrom_nil,
      List.map_cons, List.map_nil]
    simp [mkLightResult, hg, getLightIntensity]
  have hsort1 : sortByDistance [p, q] = [p, q] := by
    simp [sortByDistance, List.insertionSort, List.orderedInsert, distLE,
      le_of_lt hlt]
  have hsort2 : sortByDistance [q, p] = [p, q] := by
    simp [sortByDistance, List.insertionSort, List.orderedInsert, distLE,
      not_le.mpr hlt]
  exact ⟨compute [p, q] hsort1, compute [q, p] hsort2⟩

/-- Witness for `equal_size_two_body` at two equally sized bodies. -/
theorem equal_size_two_body_witness :
    (0 : ℚ) < 1 ∧ (0 : ℚ) < 2 ∧ (0 : ℚ) < 5000 ∧ (0 : ℚ) < 5000 ∧
    (calculateLightIntensity
        [{ name := "Near", distance := 1, size := 5000 },
         { name := "Far", distance := 2, size := 5000 }]).map
      (fun r => (r.name, r.light)) = [("Near", "Full"), ("Far", "Partial")] :=
  ⟨by decide, by decide, by decide, by decide,
    (equal_size_two_body { name := "Near", distance := 1, size := 5000 }
      { name := "Far", distance := 2, size := 5000 }
      (by decide) (by decide) (by decide) (by decide) (by decide)
      (by decide)).1⟩

end Lumoria

namespace Lumoria

lemma scientific_shadowCount_eq (planets : List Planet) (i : ℕ) :
    (getScientificShadowAnalysis planets i).shadowCount =
      getShadowCount planets i := by
  by_cases h0 : i = 0
  · simp [getScientificShadowAnalysis, getShadowCount, h0]
  · cases hp : planets[i]? with
    | none => simp [getScientificShadowAnalysis, getShadowCount, h0, hp]
    | some b => simp [getScientificShadowAnalysis, getShadowCount, h0, hp]

lemma scientific_label_eq (planets : List Planet) (i : ℕ) :
    getScientificLightIntensity (getScientificShadowAnalysis planets i) i =
      getLightIntensity i (getShadowCount planets i) := by
  rw [getScientificLightIntensity, getLightIntensity,
    scientific_shadowCount_eq]

/-- C6: the scientific variant assigns every body the same name and the
same categorical label as the primary classifier — the fractional value
never changes the discrete label. -/
theorem scientific_label_matches_primary (l : List Planet) (i : ℕ) :
    ((calculateScientificLightIntensity l)[i]?).map
        (fun r => (r.name, r.light)) =
      ((calculateLightIntensity l)[i]?).map (fun r => (r.name, r.light)) := by
  rw [calculateScientificLightIntensity_getElem?,
    calculateLightIntensity_getElem?]
  cases hb : (sortByDistance l)[i]? with
  | none => rfl
  | some b => simp [mkSciResult, mkLightResult, scientific_label_eq]

lemma shadowDetails_intensities (b : Planet) (cs : List Planet) :
    ((cs.filterMap (fun shadowCaster =>
        let shadowInfo := calculateShadowInteraction shadowCaster b
        if shadowInfo.hasShadow then
          some { caster := shadowCaster.name, type := shadowInfo.type,
                 intensity := shadowInfo.intensity }
        else none)).map (fun d : ShadowDetail => d.intensity)) =
      (cs.filter (fun c => c.distance < b.distance)).map
        (fun c => if b.size * mkRat 11 10 < c.size then (1 : ℚ)
          else if b.size * mkRat 9 10 < c.size then mkRat 6 10
          else mkRat 3 10) := by
  induction cs with
  | nil => rfl
  | cons c cs ih =>
      rw [List.filterMap_cons, List.filter_cons]
      by_cases hd : b.distance ≤ c.distance
      · have hc : calculateShadowInteraction c b =
            { hasShadow := false, type := "none", intensity := 0 } := by
          rw [calculateShadowInteraction, if_pos hd]
        simp only [hc]
        simp [not_lt.mpr hd, ih]
      · have hd' : c.distance < b.distance := not_le.mp hd
        by_cases h11 : b.size * mkRat 11 10 < c.size
        · have hc : calculateShadowInteraction c b =
              { hasShadow := true, type := "complete", intensity := 1 } := by
            rw [calculateShadowInteraction, if_neg hd, if_pos h11]
          simp only [hc]
          simp [hd', h11, ih]
        · by_cases h9 : b.size * mkRat 9 10 < c.size
          · have hc : calculateShadowInteraction c b =
                { hasShadow := true, type := "partial",
                  intensity := mkRat 6 10 } := by
              rw [calculateShadowInteraction, if_neg hd, if_neg h11, if_pos h9]
            simp only [hc]
            simp [hd', h11, h9, ih]
          · have hc : calculateShadowInteraction c b =
                { hasShadow := true, type := "minimal",
                  intensity := mkRat 3 10 } := by
              rw [calculateShadowInteraction, if_neg hd, if_neg h11, if_neg h9]
            simp only [hc]
            simp [hd', h11, h9, ih]

lemma tier_nonneg (b c : Planet) :
    (0 : ℚ) ≤ (if b.size * mkRat 11 10 < c.size then (1 : ℚ)
      else if b.size * mkRat 9 10 < c.size then mkRat 6 10
      else mkRat 3 10) := by
  split_ifs
  · exact zero_le_one
  · decide
  · decide

lemma scientific_lightIntensity_formula (planets : List Planet) (i : ℕ)
    (b : Planet) (hb : planets[i]? = some b) :
    (getScientificShadowAnalysis planets i).lightIntensity =
      1 - min ((((planets.take i).filter (fun p => b.size < p.size)).filter
          (fun p => p.distance < b.distance)).map
          (fun c => if b.size * mkRat 11 10 < c.size then (1 : ℚ)
            else if b.size * mkRat 9 10 < c.size then mkRat 6 10
            else mkRat 3 10)).sum 1 ∧
    0 ≤ (getScientificShadowAnalysis planets i).lightIntensity ∧
    (getScientificShadowAnalysis planets i).lightIntensity ≤ 1 := by
  by_cases h0 : i = 0
  · subst h0
    simp [getScientificShadowAnalysis, min_eq_left (zero_le_one (α := ℚ))]
  · rw [getScientificShadowAnalysis]
    simp only [if_neg h0, hb]
    rw [shadowDetails_intensities]
    set T := ((((planets.take i).filter (fun p => b.size < p.size)).filter
        (fun p => p.distance < b.distance)).map
        (fun c => if b.size * mkRat 11 10 < c.size then (1 : ℚ)
          else if b.size * mkRat 9 10 < c.size then mkRat 6 10
          else mkRat 3 10)).sum with hT
    have hT0 : 0 ≤ T := by
      rw [hT]
      refine List.sum_nonneg ?_
      intro x hx
      rcases List.mem_map.mp hx with ⟨c, _, rfl⟩
      exact tier_nonneg b c
    have hmin0 : 0 ≤ min T 1 := le_min hT0 zero_le_one
    have hmin1 : min T 1 ≤ 1 := min_le_right _ _
    have hmax : max (0 : ℚ) (1 - min T 1) = 1 - min T 1 :=
      max_eq_right (by linarith)
    refine ⟨by rw [hmax], ?_, ?_⟩
    · rw [hmax]; linarith
    · rw [hmax]; linarith

/-- C7: the scientific fractional light value of every body equals 1
minus the clamped-to-1 sum of shadow-caster contributions (1 for a
caster above 110% of the receiver's size, 0.6 above 90%, 0.3 otherwise,
over the strictly larger, strictly closer bodies in front), and lies
in [0, 1]. -/
theorem scientific_fraction_formula (l : List Planet) (i : ℕ) (b : Planet)
    (hb : (sortByDistance l)[i]? = some b) :
    ((calculateScientificLightIntensity l)[i]?).map
        (fun r => r.scientificLightIntensity) =
      some (1 - min (((((sortByDistance l).take i).filter
          (fun p => b.size < p.size)).filter
          (fun p => p.distance < b.distance)).map
          (fun c => if b.size * mkRat 11 10 < c.size then (1 : ℚ)
            else if b.size * mkRat 9 10 < c.size then mkRat 6 10
            else mkRat 3 10)).sum 1) ∧
    ∀ r, (calculateScientificLightIntensity l)[i]? = some r →
      0 ≤ r.scientificLightIntensity ∧ r.scientificLightIntensity ≤ 1 := by
  rcases scientific_lightIntensity_formula (sortByDistance l) i b hb with
    ⟨hf, hlo, hhi⟩
  rw [calculateScientificLightIntensity_getElem?, hb]
  constructor
  · simpa [mkSciResult] using congrArg some hf
  · intro r hr
    have : mkSciResult (sortByDistance l) i b = r := by
      simpa using hr
    rw [← this]
    exact ⟨hlo, hhi⟩

/-- Witness for `scientific_fraction_formula` at the canonical data and
sorted position 3 (Marsia). -/
theorem scientific_fraction_formula_witness :
    (sortByDistance defaultLumoriaPlanets)[3]? =
      some { name := "Marsia", distance := mkRat 15 10, size := 6779 } ∧
    (((calculateScientificLightIntensity defaultLumoriaPlanets)[3]?).map
        (fun r => r.scientificLightIntensity) =
      some (1 - min (((((sortByDistance defaultLumoriaPlanets).take 3).filter
          (fun p => (6779 : ℚ) < p.size)).filter
          (fun p => p.distance < mkRat 15 10)).map
          (fun c => if (6779 : ℚ) * mkRat 11 10 < c.size then (1 : ℚ)
            else if (6779 : ℚ) * mkRat 9 10 < c.size then mkRat 6 10
            else mkRat 3 10)).sum 1) ∧
    ∀ r, (calculateScientificLightIntensity defaultLumoriaPlanets)[3]? =
        some r →
      0 ≤ r.scientificLightIntensity ∧ r.scientificLightIntensity ≤ 1) :=
  ⟨by decide,
    scientific_fraction_formula defaultLumoriaPlanets 3
      { name := "Marsia", distance := mkRat 15 10, size := 6779 } (by decide)⟩

/-- C9: on a sorted input of bodies with positive sizes, every shadow
detail recorded by the scientific analysis has intensity 1 or 0.6 — the
0.3 minimal-shadow branch is unreachable, because only strictly larger
casters are analyzed and such a caster always exceeds 90% of the
receiver's size. -/
theorem minimal_shadow_unreachable (planets : List Planet) (i : ℕ)
    (hsize : ∀ p ∈ planets, 0 < p.size)
    (_hsorted : List.Pairwise distLE planets) :
    List.Forall (fun d => d.intensity = 1 ∨ d.intensity = mkRat 6 10)
      (getScientificShadowAnalysis planets i).shadowDetails := by
  rw [List.forall_iff_forall_mem]
  intro d hd
  by_cases h0 : i = 0
  · simp [getScientificShadowAnalysis, h0] at hd
  · cases hp : planets[i]? with
    | none =>
        rw [getScientificShadowAnalysis] at hd
        simp [h0, hp] at hd
    | some b =>
        rw [getScientificShadowAnalysis] at hd
        simp only [if_neg h0, hp] at hd
        rcases List.mem_filterMap.mp hd with ⟨c, hc, hcd⟩
        have hcsize : b.size < c.size := by
          simpa using (List.mem_filter.mp hc).2
        have hbpos : 0 < b.size := hsize b (List.getElem?_mem hp)
        have h9 : b.size * mkRat 9 10 < c.size :=
          lt_trans (mul_lt_of_lt_one_right hbpos (by decide)) hcsize
        by_cases hdist : b.distance ≤ c.distance
        · simp [calculateShadowInteraction, if_pos hdist] at hcd
        · by_cases h11 : b.size * mkRat 11 10 < c.size
          · rw [show calculateShadowInteraction c b =
                { hasShadow := true, type := "complete", intensity := 1 } by
                rw [calculateShadowInteraction]
                simp [if_neg hdist, h11]] at hcd
            simp at hcd
            rw [← hcd]
            exact Or.inl rfl
          · rw [show calculateShadowInteraction c b =
                { hasShadow := true, type := "partial",
                  intensity := mkRat 6 10 } by
                rw [calculateShadowInteraction]
                simp [if_neg hdist, h11, h9]] at hcd
            simp at hcd
            rw [← hcd]
            exact Or.inr rfl

/-- Witness for `minimal_shadow_unreachable` at the sorted canonical
data and position 3. -/
theorem minimal_shadow_unreachable_witness :
    (∀ p ∈ sortByDistance defaultLumoriaPlanets, 0 < p.size) ∧
    List.Pairwise distLE (sortByDistance defaultLumoriaPlanets) ∧
    List.Forall (fun d => d.intensity = 1 ∨ d.intensity = mkRat 6 10)
      (getScientificShadowAnalysis (sortByDistance defaultLumoriaPlanets)
        3).shadowDetails :=
  ⟨by decide, by decide,
    minimal_shadow_unreachable (sortByDistance defaultLumoriaPlanets) 3
      (by decide) (by decide)⟩

end Lumoria

namespace Lumoria

/-- C8: a body violating the name, distance and size constraints at once
gets all three violation messages in the returned error list, and the
result is marked invalid — validation does not stop at the first
violation. -/
theorem validation_collects_all_violations (planet : Planet)
    (hname : jsTrim planet.name = "") (hdist : planet.distance ≤ 0)
    (hsize : planet.size ≤ 0) :
    "Planet name is required and must be a non-empty string" ∈
      (validatePlanet planet).errors ∧
    "Distance must be a positive number (AU)" ∈
      (validatePlanet planet).errors ∧
    "Size must be a positive number (km diameter)" ∈
      (validatePlanet planet).errors ∧
    (validatePlanet planet).isValid = false := by
  have h50 : ¬ (50 : ℚ) < planet.distance :=
    not_lt.mpr (le_trans hdist (by norm_num))
  have h15 : ¬ (150000 : ℚ) < planet.size :=
    not_lt.mpr (le_trans hsize (by norm_num))
  simp [validatePlanet, hname, hdist, hsize, h50, h15]

/-- Witness for `validation_collects_all_violations` at a body with
empty name, zero distance and zero size. -/
theorem validation_collects_all_violations_witness :
    ((jsTrim "" = "") ∧ (0 : ℚ) ≤ 0 ∧ (0 : ℚ) ≤ 0) ∧
    ("Planet name is required and must be a non-empty string" ∈
      (validatePlanet { name := "", distance := 0, size := 0 }).errors ∧
    "Distance must be a positive number (AU)" ∈
      (validatePlanet { name := "", distance := 0, size := 0 }).errors ∧
    "Size must be a positive number (km diameter)" ∈
      (validatePlanet { name := "", distance := 0, size := 0 }).errors ∧
    (validatePlanet { name := "", distance := 0, size := 0 }).isValid =
      false) :=
  ⟨⟨by decide, by decide, by decide⟩,
    validation_collects_all_violations
      { name := "", distance := 0, size := 0 } (by decide) (by decide)
      (by decide)⟩

lemma getElem?_split {α : Type _} (l : List α) (i : ℕ) (a : α)
    (h : l[i]? = some a) : ∃ s t, l = s ++ a :: t ∧ s.length = i := by
  induction l generalizing i with
  | nil => simp at h
  | cons x xs ih =>
      cases i with
      | zero =>
          simp only [List.getElem?_cons_zero, Option.some_inj] at h
          exact ⟨[], xs, by simp [h], rfl⟩
      | succ n =>
          rw [List.getElem?_cons_succ] at h
          rcases ih n h with ⟨s, t, hl, hs⟩
          exact ⟨x :: s, t, by rw [List.cons_append, hl], by simp [hs]⟩

lemma validatePlanet_distance_pos (a : Planet)
    (h : (validatePlanet a).isValid = true) : 0 < a.distance := by
  have herr : (validatePlanet a).errors = [] := List.isEmpty_iff.mp h
  by_contra hle
  have hle' : a.distance ≤ 0 := not_lt.mp hle
  have hm : "Distance must be a positive number (AU)" ∈
      (validatePlanet a).errors := by
    simp [validatePlanet, hle']
  rw [herr] at hm
  simp at hm

lemma mem_validatedPlanetsOf_distance_pos (planets : List Planet) :
    ∀ r ∈ validatedPlanetsOf planets, 0 < r.distance := by
  intro r hr
  rcases List.mem_filterMap.mp hr with ⟨a, _, hfa⟩
  cases hv : (validatePlanet a).isValid with
  | false => simp [hv] at hfa
  | true =>
      simp only [hv, if_true] at hfa
      have : (validatePlanet a).planet = r := by simpa using hfa
      rw [← this]
      exact validatePlanet_distance_pos a hv

lemma duplicateDistancesOf_pos (ds : List ℚ) (i j : ℕ) (d e : ℚ)
    (hij : i ≠ j) (hi : ds[i]? = some d) (hj : ds[j]? = some e)
    (hclose : |e - d| < mkRat 1 100) (hnz : ∀ x ∈ ds, x ≠ 0) :
    0 < (duplicateDistancesOf ds).length := by
  have hmemi : (i, d) ∈ ds.enum := List.mk_mem_enum_iff_getElem?.mpr hi
  have hmemj : (j, e) ∈ ds.enum := List.mk_mem_enum_iff_getElem?.mpr hj
  have hex : ∃ x ∈ ds.enum,
      (decide (x.1 ≠ (i, d).1) && decide (|x.2 - (i, d).2| < mkRat 1 100)) =
        true :=
    ⟨(j, e), hmemj, by simp [Ne.symm hij, hclose]⟩
  have hsome : (ds.enum.find? (fun q =>
      decide (q.1 ≠ (i, d).1) &&
        decide (|q.2 - (i, d).2| < mkRat 1 100))).isSome :=
    List.find?_isSome.mpr hex
  rcases Option.isSome_iff_exists.mp hsome with ⟨q0, hq0⟩
  have hq0mem : q0 ∈ ds.enum := List.mem_of_find?_eq_some hq0
  have hq0snd : q0.2 ∈ ds := by
    have := List.mk_mem_enum_iff_getElem?.mp
      (show (q0.1, q0.2) ∈ ds.enum from hq0mem)
    exact List.getElem?_mem this
  have hq0nz : q0.2 ≠ 0 := hnz _ hq0snd
  have hfilt : (i, d) ∈ ds.enum.filter (fun p =>
      match ds.enum.find? (fun q =>
          decide (q.1 ≠ p.1) && decide (|q.2 - p.2| < mkRat 1 100)) with
      | some q => decide (q.2 ≠ 0)
      | none => false) := by
    refine List.mem_filter.mpr ⟨hmemi, ?_⟩
    rw [hq0]
    simpa using hq0nz
  have hne : duplicateDistancesOf ds ≠ [] := by
    rw [duplicateDistancesOf]
    intro hcon
    rw [List.map_eq_nil_iff] at hcon
    rw [hcon] at hfilt
    simp at hfilt
  exact List.length_pos.mpr hne

lemma validated_pair (planets : List Planet) (i j : ℕ) (p q : Planet)
    (hij : i < j) (hi : planets[i]? = some p) (hj : planets[j]? = some q)
    (hp : (validatePlanet p).isValid = true)
    (hq : (validatePlanet q).isValid = true) :
    ∃ i' j' : ℕ, i' ≠ j' ∧
      (validatedPlanetsOf planets)[i']? = some (validatePlanet p).planet ∧
      (validatedPlanetsOf planets)[j']? = some (validatePlanet q).planet := by
  rcases getElem?_split planets i p hi with ⟨s, t, rfl, hslen⟩
  have hsle : s.length ≤ j := by omega
  rw [List.getElem?_append_right hsle] at hj
  have hpos : 0 < j - s.length := by omega
  have hj' : t[j - s.length - 1]? = some q := by
    cases hk : j - s.length with
    | zero => omega
    | succ k =>
        rw [hk] at hj
        rw [List.getElem?_cons_succ] at hj
        simpa using hj
  rcases getElem?_split t _ q hj' with ⟨u, v, rfl, _⟩
  have hdecomp : validatedPlanetsOf (s ++ p :: (u ++ q :: v)) =
      validatedPlanetsOf s ++ (validatePlanet p).planet ::
        (validatedPlanetsOf u ++ (validatePlanet q).planet ::
          validatedPlanetsOf v) := by
    simp [validatedPlanetsOf, List.filterMap_append, List.filterMap_cons,
      hp, hq]
  refine ⟨(validatedPlanetsOf s).length,
    (validatedPlanetsOf s).length + 1 + (validatedPlanetsOf u).length,
    by omega, ?_, ?_⟩
  · rw [hdecomp, List.getElem?_append_right (le_refl _)]
    simp
  · rw [hdecomp, List.getElem?_append_right (by omega)]
    have hidx : (validatedPlanetsOf s).length + 1 +
        (validatedPlanetsOf u).length - (validatedPlanetsOf s).length =
        (validatedPlanetsOf u).length + 1 := by omega
    rw [hidx, List.getElem?_cons_succ,
      List.getElem?_append_right (le_refl _)]
    simp

/-- C10: a system containing two individually valid planets at indices
`i ≠ j` whose distances differ by less than 0.01 AU is rejected: the
error "Multiple planets cannot occupy the same orbital distance" is
reported and the system is marked invalid. -/
theorem distance_collision_rejected (system : SystemInput) (i j : ℕ)
    (p q : Planet) (hij : i ≠ j) (hi : system.planets[i]? = some p)
    (hj : system.planets[j]? = some q)
    (hp : (validatePlanet p).isValid = true)
    (hq : (validatePlanet q).isValid = true)
    (hclose : |p.distance - q.distance| < mkRat 1 100) :
    "Multiple planets cannot occupy the same orbital distance" ∈
      (validateStarSystem system).errors ∧
    (validateStarSystem system).isValid = false := by
  have hne : system.planets.isEmpty = false := by
    cases hpl : system.planets with
    | nil => rw [hpl] at hi; simp at hi
    | cons _ _ => rfl
  have main : ∃ i' j' : ℕ, i' ≠ j' ∧
      (validatedPlanetsOf system.planets)[i']? =
        some (validatePlanet p).planet ∧
      (validatedPlanetsOf system.planets)[j']? =
        some (validatePlanet q).planet := by
    rcases lt_or_gt_of_ne hij with h | h
    · exact validated_pair system.planets i j p q h hi hj hp hq
    · rcases validated_pair system.planets j i q p h hj hi hq hp with
        ⟨j', i', hne', hj'', hi''⟩
      exact ⟨i', j', Ne.symm hne', hi'', hj''⟩
  rcases main with ⟨i', j', hij', hi', hj'⟩
  have hdi : ((validatedPlanetsOf system.planets).map
      (fun r => r.distance))[i']? = some p.distance := by
    rw [List.getElem?_map, hi']
    rfl
  have hdj : ((validatedPlanetsOf system.planets).map
      (fun r => r.distance))[j']? = some q.distance := by
    rw [List.getElem?_map, hj']
    rfl
  have hnz : ∀ x ∈ (validatedPlanetsOf system.planets).map
      (fun r => r.distance), x ≠ 0 := by
    intro x hx
    rcases List.mem_map.mp hx with ⟨r, hr, rfl⟩
    exact ne_of_gt (mem_validatedPlanetsOf_distance_pos system.planets r hr)
  have hclose' : |q.distance - p.distance| < mkRat 1 100 := by
    rw [abs_sub_comm]
    exact hclose
  have hdup : 0 < (duplicateDistancesOf
      ((validatedPlanetsOf system.planets).map (fun r => r.distance))).length :=
    duplicateDistancesOf_pos _ i' j' p.distance q.distance hij' hdi hdj
      hclose' hnz
  have herrs : (validateStarSystem system).errors =
      (if (jsTrim system.name).length = 0 then
        ["Star system name is required"] else []) ++
      planetErrorsOf system.planets ++
      (if 0 < (duplicateNamesOf ((validatedPlanetsOf system.planets).map
          (fun p => p.name.toLower))).length then
        ["Duplicate planet names found: " ++ String.intercalate ", "
          (duplicateNamesOf ((validatedPlanetsOf system.planets).map
            (fun p => p.name.toLower))).eraseDups]
      else []) ++
      ["Multiple planets cannot occupy the same orbital distance"] := by
    rw [validateStarSystem]
    simp only [hne, Bool.false_eq_true, if_false, if_pos hdup]
  have hmem : "Multiple planets cannot occupy the same orbital distance" ∈
      (validateStarSystem system).errors := by
    rw [herrs]
    exact List.mem_append.mpr (Or.inr (List.mem_singleton_self _))
  refine ⟨hmem, ?_⟩
  cases hval : (validateStarSystem system).errors.isEmpty with
  | false =>
      rw [validateStarSystem]
      rw [validateStarSystem] at hval
      simp only [hne, Bool.false_eq_true, if_false] at hval ⊢
      exact hval
  | true =>
      rw [List.isEmpty_iff.mp hval] at hmem
      simp at hmem

/-- Witness for `distance_collision_rejected`: two valid planets at the
same 1 AU distance. -/
theorem distance_collision_rejected_witness :
    ((0 : ℕ) ≠ 1 ∧
    (validatePlanet { name := "A", distance := 1, size := 5000 }).isValid =
      true ∧
    (validatePlanet { name := "B", distance := 1, size := 6000 }).isValid =
      true ∧
    |(1 : ℚ) - 1| < mkRat 1 100) ∧
    ("Multiple planets cannot occupy the same orbital distance" ∈
      (validateStarSystem
        { name := "Sys", description := none,
          planets := [{ name := "A", distance := 1, size := 5000 },
                      { name := "B", distance := 1, size := 6000 }] }).errors ∧
    (validateStarSystem
        { name := "Sys", description := none,
          planets := [{ name := "A", distance := 1, size := 5000 },
                      { name := "B", distance := 1, size := 6000 }] }).isValid =
      false) :=
  ⟨⟨by decide, by decide, by decide, by rw [sub_self, abs_zero]; decide⟩,
    distance_collision_rejected
      { name := "Sys", description := none,
        planets := [{ name := "A", distance := 1, size := 5000 },
                    { name := "B", distance := 1, size := 6000 }] }
      0 1 { name := "A", distance := 1, size := 5000 }
      { name := "B", distance := 1, size := 6000 }
      (by decide) (by decide) (by decide) (by decide) (by decide)
      (by rw [sub_self, abs_zero]; decide)⟩

end Lumoria
